import Mathlib

/-!
Verification development for the DJAI automatic mixing engine.

The definitions below are a shallow embedding of the JavaScript source:

* `src/src/audio-analyzer.js` — key compatibility (Camelot wheel), transition
  selection (`findBestTransition`, `determineTransitionType`), per-file analysis
  (`analyzeTrackFile`);
* `src/src/upload-routes.js` — the mix-order planner (`calculateMixOrder` and its
  three strategy orderings) and the transition planner (`generateTransitionPoints`);
* the browser `AudioMixer` component (gain/EQ/tempo chains, crossfade scheduling,
  `nextTrack`).

JavaScript numbers are modelled as `ℚ` (the code performs no floating-point-specific
operations on the paths treated here); `NaN`, which genuinely arises from reads of
absent properties, is modelled by the type `JNum`.  Absent object properties are
`Option` fields.  A thrown exception is an `Except.error`.  Scheduled Web-Audio
automation and timers are modelled as explicit lists carried in the mixer state.
-/

namespace DJai

/-! ## JavaScript value helpers -/

/-- JavaScript numeric value: either an actual (rational) number or `NaN`. -/
inductive JNum where
  | num (q : ℚ)
  | nan
deriving DecidableEq, Repr

/-- Read of a possibly-absent numeric property: `undefined` becomes `NaN`
as soon as it enters arithmetic. -/
def JNum.ofOpt : Option ℚ → JNum
  | some q => .num q
  | none => .nan

/-- JavaScript subtraction; any operand being `NaN` gives `NaN`. -/
def JNum.sub : JNum → JNum → JNum
  | .num a, .num b => .num (a - b)
  | _, _ => .nan

/-- JavaScript multiplication with `NaN` propagation. -/
def JNum.mul : JNum → JNum → JNum
  | .num a, .num b => .num (a * b)
  | _, _ => .nan

/-- Math.abs with `NaN` propagation. -/
def JNum.abs : JNum → JNum
  | .num a => .num (if a < 0 then -a else a)
  | .nan => .nan

/-- Math.floor with `NaN` propagation. -/
def JNum.floorJ : JNum → JNum
  | .num a => .num ((⌊a⌋ : ℤ) : ℚ)
  | .nan => .nan

/-- JavaScript comparison `a < b`; false whenever an operand is `NaN`. -/
def JNum.ltb : JNum → ℚ → Bool
  | .num a, b => decide (a < b)
  | .nan, _ => false

/-- JavaScript comparison `a > b`; false whenever an operand is `NaN`. -/
def JNum.gtb : JNum → ℚ → Bool
  | .num a, b => decide (b < a)
  | .nan, _ => false

/-- JavaScript `x || d` on a possibly-absent number: `undefined` and `0` are
falsy and select the default. -/
def jsOr (o : Option ℚ) (d : ℚ) : ℚ :=
  match o with
  | some v => if v = 0 then d else v
  | none => d

/-- JavaScript `s || d` on a possibly-absent string: `undefined` and the empty
string are falsy and select the default. -/
def jsOrStr (o : Option String) (d : String) : String :=
  match o with
  | some s => if s = "" then d else s
  | none => d

/-- Truthiness of a possibly-absent string (`undefined` and `""` are falsy). -/
def jsTruthyStr (o : Option String) : Bool :=
  match o with
  | some s => decide (s ≠ "")
  | none => false

/-- Truthiness of a possibly-absent number (`undefined` and `0` are falsy). -/
def jsTruthyNum (o : Option ℚ) : Bool :=
  match o with
  | some v => decide (v ≠ 0)
  | none => false

/-- Math.abs on an actual number. -/
def ratAbs (x : ℚ) : ℚ := if x < 0 then -x else x

/-- Math.floor on an actual number, as a rational. -/
def jsFloor (x : ℚ) : ℚ := ((⌊x⌋ : ℤ) : ℚ)

/-- Math.max on two numbers. -/
def jsMax (a b : ℚ) : ℚ := if a ≤ b then b else a

/-- Math.min on two numbers. -/
def jsMin (a b : ℚ) : ℚ := if a ≤ b then a else b

/-- ASCII lower-casing of one character, as performed by
String.prototype.toLowerCase on the key/scale names occurring here. -/
def jsCharLower (c : Char) : Char :=
  if c.isUpper then Char.ofNat (c.toNat + 32) else c

/-- String.prototype.toLowerCase (ASCII range, which covers every key and
scale name in the source tables). -/
def jsToLowerCase (s : String) : String := String.mk (s.data.map jsCharLower)

/-- Template-literal rendering of a possibly-absent string
(JavaScript renders `undefined` as the text "undefined"). -/
def jsRender (o : Option String) : String := o.getD "undefined"

/-! ## Data model: analysis results and tracks

`Rhythm` is the `rhythmAnalysis` object built by `analyzeTrackFile`
(`audio-analyzer.js`).  When Essentia is unavailable the source leaves it as the
empty object `{}`, so every field is optional. -/

/-- One entry of the `energyBands` array built by `analyzeTrackFile`. -/
structure EnergyBand where
  time : ℚ
  lowEnergy : ℚ
  midEnergy : ℚ
  highEnergy : ℚ
deriving DecidableEq, Repr

/-- The `rhythmAnalysis` object of `analyzeTrackFile`; `{}` when Essentia is
not initialised, hence all fields optional. -/
structure Rhythm where
  bpm : Option ℚ := none
  beats : Option (List ℚ) := none
  confidence : Option ℚ := none
  key : Option String := none
  scale : Option String := none
  segments : Option (List ℚ) := none
  energyBands : Option (List EnergyBand) := none
deriving DecidableEq, Repr

/-- The `format` part of an analysis result (from music-metadata; its duration
may itself be undefined). -/
structure AFormat where
  duration : Option ℚ := none
  sampleRate : Option ℚ := none
  channels : Option ℚ := none
deriving DecidableEq, Repr

/-- The analysis object produced by `analyzeTrackFile`:
`{ format, metadata, rhythm, timestamp }`.  The object carries NO top-level
`duration` property; the field below models that absent property, which
`findBestTransition` nevertheless reads (`sourceTrack.duration`). -/
structure Analysis where
  format : AFormat := {}
  rhythm : Option Rhythm := none
  duration : Option ℚ := none
deriving DecidableEq, Repr

/-- A track object as handled by `upload-routes.js`: plain JavaScript object,
so every property that can be absent is an `Option`. -/
structure DTrack where
  id : ℕ
  bpm : Option ℚ := none
  duration : Option ℚ := none
  advancedAnalysis : Option Analysis := none
  energy : Option ℚ := none
  key : Option String := none
  scale : Option String := none
  analyzed : Bool := false
  uploaded : Bool := false
  filePath : Option String := none
deriving DecidableEq, Repr

/-- Placeholder used for (guarded, in-range) JavaScript array indexing. -/
def dtrackDefault : DTrack := { id := 0 }

/-! ## audio-analyzer.js: Camelot wheel and key compatibility -/

/-- The `camelotMap` table of `keyToCamelot` (audio-analyzer.js), verbatim. -/
def camelotMap : List (String × String) :=
  [("C major", "08B"), ("G major", "09B"), ("D major", "10B"), ("A major", "11B"),
   ("E major", "12B"), ("B major", "01B"), ("F# major", "02B"), ("C# major", "03B"),
   ("G# major", "04B"), ("D# major", "05B"), ("A# major", "06B"), ("F major", "07B"),
   ("A minor", "08A"), ("E minor", "09A"), ("B minor", "10A"), ("F# minor", "11A"),
   ("C# minor", "12A"), ("G# minor", "01A"), ("D# minor", "02A"), ("A# minor", "03A"),
   ("F minor", "04A"), ("C minor", "05A"), ("G minor", "06A"), ("D minor", "07A"),
   ("Db major", "03B"), ("Eb major", "05B"), ("Gb major", "02B"), ("Ab major", "04B"),
   ("Bb major", "06B"),
   ("Bb minor", "03A"), ("Eb minor", "02A"), ("Ab minor", "01A"), ("Db minor", "04A"),
   ("Gb minor", "11A")]

/-- keyToCamelot(key, scale).  Reading `scale.toLowerCase()` on an undefined
scale throws a TypeError; an unknown key/scale combination yields null
(here `none`). -/
def keyToCamelot (key : Option String) (scale : Option String) :
    Except String (Option String) :=
  match scale with
  | none => .error "TypeError: cannot read toLowerCase of undefined"
  | some sc => .ok (camelotMap.lookup (jsRender key ++ " " ++ jsToLowerCase sc))

/-- parseInt(camelot.substring(0, 2)) — the two leading digits of a Camelot code. -/
def camelotHour (s : String) : ℕ :=
  match s.data with
  | d1 :: d2 :: _ => 10 * (d1.toNat - 48) + (d2.toNat - 48)
  | _ => 0

/-- camelot.substring(2) — the mode letter of a Camelot code. -/
def camelotModeStr (s : String) : String := String.mk (s.data.drop 2)

/-- analyzeKeyCompatibility(sourceKey, sourceScale, targetKey, targetScale)
from audio-analyzer.js.

The relative major/minor branch computes
`const relativeHour = mode === A ? (hour + 3) % 12 : (hour - 3 + 12) % 12`
and then executes `if (relativeHour === 0) relativeHour = 12;` — an assignment
to a `const` binding, which throws a TypeError at runtime whenever the
computed value is 0. -/
def analyzeKeyCompatibility (sourceKey sourceScale targetKey targetScale : Option String) :
    Except String String := do
  let sourceCamelotOpt ← keyToCamelot sourceKey sourceScale
  let targetCamelotOpt ← keyToCamelot targetKey targetScale
  match sourceCamelotOpt, targetCamelotOpt with
  | some sourceCamelot, some targetCamelot =>
    let sourceHour : ℕ := camelotHour sourceCamelot
    let sourceMode : String := camelotModeStr sourceCamelot
    let targetHour : ℕ := camelotHour targetCamelot
    let targetMode : String := camelotModeStr targetCamelot
    if sourceCamelot = targetCamelot then .ok "perfect"
    else if sourceMode = targetMode ∧
        (sourceHour = targetHour % 12 + 1 ∨ targetHour = sourceHour % 12 + 1) then
      .ok "compatible"
    else do
      let afterRelative ←
        if (sourceMode = "A" ∧ targetMode = "B") ∨ (sourceMode = "B" ∧ targetMode = "A") then
          let relativeHour : ℤ :=
            if sourceMode = "A" then ((sourceHour : ℤ) + 3) % 12
            else ((sourceHour : ℤ) - 3 + 12) % 12
          if relativeHour = 0 then
            .error "TypeError: Assignment to constant variable."
          else if relativeHour = (targetHour : ℤ) then .ok (some "compatible")
          else .ok none
        else .ok none
      match afterRelative with
      | some r => .ok r
      | none =>
        if sourceMode = targetMode ∧
            (sourceHour = (targetHour + 7) % 12 ∨ targetHour = (sourceHour + 7) % 12) then
          .ok "compatible"
        else if ((sourceHour : ℤ) - targetHour).natAbs = 6 then .ok "clash"
        else .ok "moderate"
  | _, _ => .ok "unknown"

/-- determineTransitionType(bpmCompatibility, keyCompatibility) from
audio-analyzer.js: first matching rule wins. -/
def determineTransitionType (bpmCompatibility keyCompatibility : String) : String :=
  if bpmCompatibility = "good" ∧ keyCompatibility = "perfect" then "beatmatch_blend"
  else if bpmCompatibility = "good" then "beatmatch_fade"
  else if keyCompatibility = "perfect" ∨ keyCompatibility = "compatible" then "harmonic_fade"
  else if bpmCompatibility = "moderate" ∧ keyCompatibility ≠ "clash" then "tempo_adjust"
  else "cut_eq"

/-! ## audio-analyzer.js: findBestTransition -/

/-- The object returned by `findBestTransition` (and by the fallback block of
`generateTransitionPoints`).  Fields that a given path does not set are absent
(`none`); in particular `findBestTransition` never sets `duration`. -/
structure TransitionInfo where
  transitionPoint : JNum
  sourceBpm : JNum := .nan
  targetBpm : JNum := .nan
  bpmDifference : JNum
  bpmCompatibility : Option String := none
  sourceKey : Option String := none
  targetKey : Option String := none
  keyCompatibility : Option String := none
  type : String
  duration : Option ℚ := none
deriving DecidableEq, Repr

/-- findBestTransition(sourceTrack, targetTrack) from audio-analyzer.js.

It reads `sourceTrack.duration`, a property the analysis objects do not carry,
so the default transition point is `Math.floor(undefined * 0.8) = NaN`.  On the
advanced path it calls `analyzeKeyCompatibility`, whose exception (see C5)
propagates.  The returned object has no `duration` property on either path. -/
def findBestTransition (sourceTrack targetTrack : Analysis) :
    Except String TransitionInfo :=
  let defaultTransitionPoint : JNum :=
    ((JNum.ofOpt sourceTrack.duration).mul (.num (8/10))).floorJ
  match sourceTrack.rhythm, targetTrack.rhythm with
  | some sourceRhythm, some targetRhythm =>
    match sourceRhythm.beats, targetRhythm.beats with
    | some beats, some _ => do
      let startSearchAt : ℕ := (⌊(beats.length : ℚ) * (66/100)⌋).toNat
      let phraseIndex :=
        (List.range' startSearchAt (beats.length - startSearchAt)).find?
          (fun i => i % 16 == 0)
      let bestTransitionPoint : JNum :=
        match phraseIndex with
        | some i => .num (beats.getD i 0)
        | none => defaultTransitionPoint
      let bpmDifference := (JNum.ofOpt targetRhythm.bpm).sub (JNum.ofOpt sourceRhythm.bpm)
      let bpmCompatibility : String :=
        if bpmDifference.abs.ltb 10 then "good"
        else if bpmDifference.abs.ltb 20 then "moderate"
        else "challenging"
      let keyCompatibility ←
        analyzeKeyCompatibility sourceRhythm.key sourceRhythm.scale
          targetRhythm.key targetRhythm.scale
      .ok { transitionPoint := bestTransitionPoint,
            sourceBpm := JNum.ofOpt sourceRhythm.bpm,
            targetBpm := JNum.ofOpt targetRhythm.bpm,
            bpmDifference := bpmDifference,
            bpmCompatibility := some bpmCompatibility,
            sourceKey := sourceRhythm.key,
            targetKey := targetRhythm.key,
            keyCompatibility := some keyCompatibility,
            type := determineTransitionType bpmCompatibility keyCompatibility }
    | _, _ =>
      .ok { transitionPoint := defaultTransitionPoint,
            sourceBpm := .num (jsOr (sourceTrack.rhythm.bind Rhythm.bpm) 120),
            targetBpm := .num (jsOr (targetTrack.rhythm.bind Rhythm.bpm) 120),
            bpmDifference := .num (jsOr (targetTrack.rhythm.bind Rhythm.bpm) 120 -
              jsOr (sourceTrack.rhythm.bind Rhythm.bpm) 120),
            sourceKey := some (jsOrStr (sourceTrack.rhythm.bind Rhythm.key) "C"),
            targetKey := some (jsOrStr (targetTrack.rhythm.bind Rhythm.key) "C"),
            keyCompatibility := some "unknown",
            type := "simple" }
  | _, _ =>
    .ok { transitionPoint := defaultTransitionPoint,
          sourceBpm := .num (jsOr (sourceTrack.rhythm.bind Rhythm.bpm) 120),
          targetBpm := .num (jsOr (targetTrack.rhythm.bind Rhythm.bpm) 120),
          bpmDifference := .num (jsOr (targetTrack.rhythm.bind Rhythm.bpm) 120 -
            jsOr (sourceTrack.rhythm.bind Rhythm.bpm) 120),
          sourceKey := some (jsOrStr (sourceTrack.rhythm.bind Rhythm.key) "C"),
          targetKey := some (jsOrStr (targetTrack.rhythm.bind Rhythm.key) "C"),
          keyCompatibility := some "unknown",
          type := "simple" }

/-! ## upload-routes.js: generateTransitionPoints -/

/-- One element of the `transitions` array produced by
`generateTransitionPoints` (upload-routes.js). -/
structure TransitionRec where
  fromTrack : ℕ
  toTrack : ℕ
  transitionPoint : JNum
  bpmDifference : JNum
  sourceKey : Option String
  targetKey : Option String
  keyCompatibility : Option String
  transitionType : String
  transitionDuration : ℚ
deriving DecidableEq, Repr

/-- The fallback block of `generateTransitionPoints`, used when at least one of
the two tracks lacks advanced analysis: 80 percent transition point, duration
6000 / 12000 / 8000 by BPM difference.  No clamping against the track duration
is performed. -/
def fallbackTransitionInfo (currentTrack nextTrack : DTrack) (currentDuration : ℚ) :
    TransitionInfo :=
  let currentBpm := jsOr currentTrack.bpm 120
  let nextBpm := jsOr nextTrack.bpm 120
  let bpmDiff := nextBpm - currentBpm
  let transitionPoint := jsFloor (currentDuration * (8/10))
  let transitionDuration : ℚ :=
    if ratAbs bpmDiff < 5 then 6000 else if 15 < ratAbs bpmDiff then 12000 else 8000
  let transitionType : String :=
    if ratAbs bpmDiff < 5 then "beatmatch" else if 15 < ratAbs bpmDiff then "long_fade"
    else "fade"
  { transitionPoint := .num transitionPoint,
    sourceBpm := .num currentBpm,
    targetBpm := .num nextBpm,
    bpmDifference := .num bpmDiff,
    type := transitionType,
    duration := some transitionDuration }

/-- The loop body of `generateTransitionPoints` for one consecutive pair:
advanced analysis on both sides routes through `findBestTransition`, otherwise
the fallback block runs; the pushed record defaults `transitionDuration` to
8000 when the info object carries no duration. -/
def transitionFor (currentTrack nextTrack : DTrack) : Except String TransitionRec := do
  let currentDuration := jsOr currentTrack.duration 180000
  let info ←
    match currentTrack.advancedAnalysis, nextTrack.advancedAnalysis with
    | some sourceAnalysis, some targetAnalysis => findBestTransition sourceAnalysis targetAnalysis
    | _, _ => .ok (fallbackTransitionInfo currentTrack nextTrack currentDuration)
  .ok { fromTrack := currentTrack.id,
        toTrack := nextTrack.id,
        transitionPoint := info.transitionPoint,
        bpmDifference := info.bpmDifference,
        sourceKey := info.sourceKey,
        targetKey := info.targetKey,
        keyCompatibility := info.keyCompatibility,
        transitionType := info.type,
        transitionDuration := jsOr info.duration 8000 }

/-- An analysis object as produced by `analyzeTrackFile`: rhythm data present
(beats, BPM 120, C major), no top-level duration property. -/
def analysisC : Analysis :=
  { rhythm := some { bpm := some 120, beats := some [0, 500],
                     key := some "C", scale := some "major" } }

/-- An analyzed track (advanced analysis present). -/
def trackAdv1 : DTrack := { id := 1, advancedAnalysis := some analysisC }

/-- A second analyzed track with the same features. -/
def trackAdv2 : DTrack := { id := 2, advancedAnalysis := some analysisC }

/-- A fallback-path track at 100 BPM. -/
def trackFall1 : DTrack := { id := 1, bpm := some 100 }

/-- A fallback-path track at 110 BPM. -/
def trackFall2 : DTrack := { id := 2, bpm := some 110 }

/-! ## Array.prototype.sort

ECMA-262 requires `arr.sort(cmp)` with a consistent comparator to produce the
sorted, stable permutation of the array, which is unique; for the key-difference
comparators used in upload-routes.js (`(a, b) => keyA - keyB`) that is exactly
the result of a stable insertion sort ascending by key, embedded here. -/

/-- Stable insertion of one element: it goes before the first strictly greater
element, hence after all earlier elements with an equal key. -/
def insertSorted (le : α → α → Bool) (x : α) : List α → List α
  | [] => [x]
  | y :: ys => if le x y && !(le y x) then x :: y :: ys else y :: insertSorted le x ys

/-- `arr.sort((a, b) => key(a) - key(b))`: the stable ascending sort by key. -/
def jsSortBy (key : α → ℚ) (l : List α) : List α :=
  l.foldl (fun acc x => insertSorted (fun a b => decide (key a ≤ key b)) x acc) []

/-! ## upload-routes.js: the mix-order planner -/

/-- BPM-proxy part of `estimateTrackEnergy` (the `if (track.bpm)` branch;
an absent or zero BPM is falsy and yields the default 5). -/
def estimateTrackEnergyFromBpm (track : DTrack) : ℚ :=
  match track.bpm with
  | some bpm =>
    if bpm ≠ 0 then
      if bpm < 80 then 2
      else if bpm < 100 then 4
      else if bpm < 120 then 6
      else if bpm < 140 then 8
      else 10
    else 5
  | none => 5

/-- estimateTrackEnergy(track) from upload-routes.js: average of the energy
bands scaled to 1..10 when available, otherwise the BPM bucket proxy. -/
def estimateTrackEnergy (track : DTrack) : ℚ :=
  match track.advancedAnalysis.bind (fun a => a.rhythm.bind Rhythm.energyBands) with
  | some bands =>
    if 0 < bands.length then
      let avgEnergy :=
        (bands.foldl
          (fun sum band => sum + (band.lowEnergy + band.midEnergy + band.highEnergy) / 3) 0) /
          (bands.length : ℚ)
      jsMax 1 (jsMin 10 (jsFloor (avgEnergy * 10)))
    else estimateTrackEnergyFromBpm track
  | none => estimateTrackEnergyFromBpm track

/-- The while loop of `createEnergyCurve`.  The fuel equals the number of
tracks; the loop body appends exactly one element per iteration (the source
invariant `result.length = upIndex - downIndex - 1` makes one of the three
branches apply while `result.length < n`), so this fuel is exactly enough.
Energy fields are always present at the call site (set by the enrichment map);
the `getD` reads are in range by the loop guards. -/
def energyLoop (sorted : List DTrack) (n : ℕ) :
    ℕ → ℕ → ℤ → Bool → List DTrack → List DTrack
  | 0, _, _, _, result => result
  | fuel + 1, upIndex, downIndex, goingUp, result =>
    if result.length < n then
      let step : Option (DTrack × ℕ × ℤ) :=
        if goingUp ∧ upIndex < sorted.length then
          some (sorted.getD upIndex dtrackDefault, upIndex + 1, downIndex)
        else if 0 ≤ downIndex then
          some (sorted.getD downIndex.toNat dtrackDefault, upIndex, downIndex - 1)
        else if upIndex < sorted.length then
          some (sorted.getD upIndex dtrackDefault, upIndex + 1, downIndex)
        else none
      match step with
      | some (t, up2, down2) =>
        let result2 := result ++ [t]
        let goingUp2 :=
          if goingUp ∧ (n : ℚ) * (7/10) < (result2.length : ℚ) then false else goingUp
        energyLoop sorted n fuel up2 down2 goingUp2 result2
      | none => result
    else result

/-- createEnergyCurve(tracks): start at the median-energy track, then climb,
switching direction after 70 percent of the set is placed. -/
def createEnergyCurve (tracks : List DTrack) : List DTrack :=
  let sortedByEnergy := jsSortBy (fun t => t.energy.getD 0) tracks
  let midpoint := sortedByEnergy.length / 2
  energyLoop sortedByEnergy tracks.length tracks.length (midpoint + 1) ((midpoint : ℤ) - 1)
    true [sortedByEnergy.getD midpoint dtrackDefault]

/-- The while loop of `minimizeBpmJumps`: repeatedly splice out the remaining
track whose BPM is closest to the last placed one (first index wins ties,
matching the strict `<` update against an initial Infinity). -/
def bpmLoop : DTrack → List DTrack → ℕ → List DTrack
  | _, _, 0 => []
  | lastTrack, remaining, fuel + 1 =>
    if remaining.isEmpty then [] else
    let bestMatch := (remaining.enum.foldl
      (fun (acc : ℕ × Option ℚ) p =>
        let diff := ratAbs ((p.2.bpm.getD 0) - (lastTrack.bpm.getD 0))
        match acc.2 with
        | none => (p.1, some diff)
        | some bestDiff => if diff < bestDiff then (p.1, some diff) else acc)
      (0, none)).1
    match remaining.get? bestMatch with
    | some t => t :: bpmLoop t (remaining.eraseIdx bestMatch) fuel
    | none => []

/-- minimizeBpmJumps(tracks) from upload-routes.js. -/
def minimizeBpmJumps (tracks : List DTrack) : List DTrack :=
  match jsSortBy (fun t => t.bpm.getD 0) tracks with
  | [] => []
  | first :: remaining => first :: bpmLoop first remaining remaining.length

/-- The `camelotWheel` table of `scoreKeyCompatibility` (upload-routes.js),
verbatim; note it differs from the analyzer's `camelotMap`. -/
def camelotWheel : List (String × ℤ) :=
  [("C major", 8), ("G major", 9), ("D major", 10), ("A major", 11),
   ("E major", 12), ("B major", 1), ("F# major", 2), ("C# major", 3),
   ("G# major", 4), ("D# major", 5), ("A# major", 6), ("F major", 7),
   ("A minor", 8), ("E minor", 9), ("B minor", 10), ("F# minor", 11),
   ("C# minor", 12), ("G# minor", 1), ("D# minor", 2), ("A# minor", 3),
   ("F minor", 4), ("C minor", 5), ("G minor", 6), ("D minor", 7),
   ("Db major", 3), ("Eb major", 5), ("Gb major", 2), ("Ab major", 4), ("Bb major", 6),
   ("Bb minor", 3), ("Eb minor", 2), ("Ab minor", 1), ("Db minor", 4), ("Gb minor", 11)]

/-- scoreKeyCompatibility(key1, scale1, key2, scale2) from upload-routes.js:
0..10 score used by the harmonic-greedy ordering. -/
def scoreKeyCompatibility (key1 scale1 key2 scale2 : String) : ℚ :=
  if key1 = key2 ∧ scale1 = scale2 then 10
  else
    let mode1 := if jsToLowerCase scale1 = "minor" then "minor" else "major"
    let mode2 := if jsToLowerCase scale2 = "minor" then "minor" else "major"
    match camelotWheel.lookup (key1 ++ " " ++ mode1),
        camelotWheel.lookup (key2 ++ " " ++ mode2) with
    | some key1Pos, some key2Pos =>
      let d0 : ℤ := ((key1Pos - key2Pos).natAbs : ℤ)
      let distance : ℤ := if 6 < d0 then 12 - d0 else d0
      if distance = 1 then 9
      else if distance = 3 ∧ mode1 ≠ mode2 then 9
      else if distance = 7 then 8
      else if mode1 = mode2 then ((10 - distance : ℤ) : ℚ)
      else ((6 - distance : ℤ) : ℚ)
    | _, _ => 5

/-- The while loop of `harmonicMixing`: greedy by
`2 * keyCompatibility + bpmProximity` (strict `>` against an initial -1, first
index wins ties).  Key and scale are present on every element at the call site
(the list is filtered on their truthiness). -/
def harmonicLoop : DTrack → List DTrack → ℕ → List DTrack
  | _, _, 0 => []
  | lastTrack, remaining, fuel + 1 =>
    if remaining.isEmpty then [] else
    let bestMatch := (remaining.enum.foldl
      (fun (acc : ℕ × ℚ) p =>
        let keyMatch := scoreKeyCompatibility (lastTrack.key.getD "") (lastTrack.scale.getD "")
          (p.2.key.getD "") (p.2.scale.getD "")
        let bpmDiff := ratAbs ((p.2.bpm.getD 0) - (lastTrack.bpm.getD 0))
        let bpmScore := 10 - jsMin 10 (bpmDiff / 5)
        let score := keyMatch * 2 + bpmScore
        if acc.2 < score then (p.1, score) else acc)
      (0, -1)).1
    match remaining.get? bestMatch with
    | some t => t :: harmonicLoop t (remaining.eraseIdx bestMatch) fuel
    | none => []

/-- harmonicMixing(tracks) from upload-routes.js: greedy harmonic chain over
the keyed tracks (at least half must be keyed), unkeyed tracks appended. -/
def harmonicMixing (tracks : List DTrack) : List DTrack :=
  let tracksWithKeys := tracks.filter (fun t => jsTruthyStr t.key && jsTruthyStr t.scale)
  if (tracksWithKeys.length : ℚ) < (tracks.length : ℚ) * (5/10) then tracks
  else
    let missingTracks := tracks.filter (fun t => !(jsTruthyStr t.key && jsTruthyStr t.scale))
    (match tracksWithKeys with
     | [] => []
     | first :: remaining => first :: harmonicLoop first remaining remaining.length) ++
      missingTracks

/-- One strategy's contribution to `scores[track.id][position]`: the strategy
weight for each occurrence of the id at that position of the strategy's
ordering (with pairwise-distinct ids this is the weight iff the ordering puts
the track at the position). -/
def strategyVote (ordering : List DTrack) (weight : ℚ) (trackId position : ℕ) : ℚ :=
  ((ordering.enum.filter (fun p => p.2.id = trackId ∧ p.1 = position)).length : ℚ) * weight

/-- The combined score table of `calculateMixOrder`: energy-arc weight 5,
tempo-greedy weight 10, harmonic-greedy weight 8 (only when advanced analysis
exists). -/
def positionScore (energyOrdered bpmOrdered harmonicOrdered : List DTrack)
    (hasAdvancedAnalysis : Bool) (trackId position : ℕ) : ℚ :=
  strategyVote energyOrdered 5 trackId position +
    strategyVote bpmOrdered 10 trackId position +
    (if hasAdvancedAnalysis then strategyVote harmonicOrdered 8 trackId position else 0)

/-- One step of the inner `tracks.forEach` of the greedy placement: keep the
first unused track that strictly improves the best score (initially -1). -/
def bestStep (usedTracks : List ℕ) (f : ℕ → ℚ) (acc : ℚ × Option DTrack) (track : DTrack) :
    ℚ × Option DTrack :=
  if track.id ∉ usedTracks ∧ acc.1 < f track.id then (f track.id, some track) else acc

/-- The per-position search of the greedy placement loop. -/
def findBestForPosition (tracks : List DTrack) (usedTracks : List ℕ) (f : ℕ → ℚ) :
    Option DTrack :=
  (tracks.foldl (bestStep usedTracks f) (-1, none)).2

/-- The greedy placement loop of `calculateMixOrder`: one iteration per
position (the fuel is the number of positions), pushing the best-scoring
unused track, if any, and marking it used. -/
def greedyPlace (tracks : List DTrack) (score : ℕ → ℕ → ℚ) :
    ℕ → ℕ → List ℕ → List DTrack × List ℕ
  | _, 0, usedTracks => ([], usedTracks)
  | position, fuel + 1, usedTracks =>
    match findBestForPosition tracks usedTracks (fun tid => score tid position) with
    | some bestTrack =>
      let rest := greedyPlace tracks score (position + 1) fuel (bestTrack.id :: usedTracks)
      (bestTrack :: rest.1, rest.2)
    | none => greedyPlace tracks score (position + 1) fuel usedTracks

/-- The enrichment map of `calculateMixOrder`:
`{...track, energy, bpm: bpm || 120, key: ...key || C, scale: ...scale || major}`
— a fresh object per track, the original is untouched. -/
def enrichTrack (track : DTrack) : DTrack :=
  { track with
    energy := some (estimateTrackEnergy track),
    bpm := some (jsOr track.bpm 120),
    key := some (jsOrStr (track.advancedAnalysis.bind (fun a => a.rhythm.bind Rhythm.key)) "C"),
    scale := some (jsOrStr (track.advancedAnalysis.bind
      (fun a => a.rhythm.bind Rhythm.scale)) "major") }

/-- Models the array spread `[...arr]`: a fresh array holding the same
elements, so in-place operations on it leave the original alone. -/
def jsArrayCopy (l : List DTrack) : List DTrack := l

/-- calculateMixOrder(analyzedTracks) from upload-routes.js: fewer than 3
tracks sort by BPM; otherwise combine the three strategy orderings through the
weighted score table and place greedily, appending any leftover tracks. -/
def calculateMixOrder (analyzedTracks : List DTrack) : List DTrack :=
  if analyzedTracks.length < 3 then
    jsSortBy (fun t => jsOr t.bpm 120) (jsArrayCopy analyzedTracks)
  else
    let hasAdvancedAnalysis := analyzedTracks.any (fun t => t.advancedAnalysis.isSome)
    let tracks := (jsArrayCopy analyzedTracks).map enrichTrack
    let energyOrdered := createEnergyCurve tracks
    let bpmOrdered := minimizeBpmJumps tracks
    let harmonicOrdered := if hasAdvancedAnalysis then harmonicMixing tracks else tracks
    let scores := fun trackId position =>
      positionScore energyOrdered bpmOrdered harmonicOrdered hasAdvancedAnalysis
        trackId position
    let placed := greedyPlace tracks scores 0 tracks.length []
    placed.1 ++ tracks.filter (fun t => decide (t.id ∉ placed.2))

/-- The call `calculateMixOrder(analyzedTracks)` with the caller's array
threaded through explicitly (first component: the caller's array after the
call).  Every in-place array operation in the source body acts on an
`jsArrayCopy` (the spreads `[...analyzedTracks]`, `[...tracks]`) and every
track object placed in the result is either an original element or a fresh
spread-copy; no step writes to the threaded array or to its elements, so it is
returned unchanged. -/
def calculateMixOrderCall (analyzedTracks : List DTrack) : List DTrack × List DTrack :=
  if analyzedTracks.length < 3 then
    (analyzedTracks, jsSortBy (fun t => jsOr t.bpm 120) (jsArrayCopy analyzedTracks))
  else
    let hasAdvancedAnalysis := analyzedTracks.any (fun t => t.advancedAnalysis.isSome)
    let tracks := (jsArrayCopy analyzedTracks).map enrichTrack
    let energyOrdered := createEnergyCurve tracks
    let bpmOrdered := minimizeBpmJumps tracks
    let harmonicOrdered := if hasAdvancedAnalysis then harmonicMixing tracks else tracks
    let scores := fun trackId position =>
      positionScore energyOrdered bpmOrdered harmonicOrdered hasAdvancedAnalysis
        trackId position
    let placed := greedyPlace tracks scores 0 tracks.length []
    (analyzedTracks, placed.1 ++ tracks.filter (fun t => decide (t.id ∉ placed.2)))

/-- Scenario track at 120 BPM. -/
def trackMixA : DTrack := { id := 1, bpm := some 120 }

/-- Scenario track at 122 BPM. -/
def trackMixB : DTrack := { id := 2, bpm := some 122 }

/-- Scenario track at 180 BPM. -/
def trackMixC : DTrack := { id := 3, bpm := some 180 }

/-! ## audio-analyzer.js: analyzeTrackFile and its caller analyzeTracks

The effectful steps of `analyzeTrackFile` (file system, music-metadata,
decoding, Essentia) are modelled by an environment record giving each step's
outcome; the function itself is the control flow of the source. -/

/-- Outcomes of the effectful steps of one `analyzeTrackFile` run. -/
structure AnalyzerEnv where
  fileExists : Bool := true
  cached : Option Analysis := none
  readFileOk : Except String Unit := .ok ()
  metadataResult : Except String AFormat := .ok {}
  decodeOk : Except String Unit := .ok ()
  essentiaReady : Bool := false
  essentiaResult : Except String Rhythm := .ok {}

/-- analyzeTrackFile(filePath) from audio-analyzer.js.  The missing-file check
throws before the try block; inside the try block every failing step reaches
`catch (error) { console.error(...); throw error; }`, which logs and rethrows,
so the failure propagates to the caller.  When Essentia is not initialised the
rhythm analysis object stays `{}`. -/
def analyzeTrackFile (env : AnalyzerEnv) (filePath : String) : Except String Analysis :=
  if env.fileExists = false then .error ("File not found: " ++ filePath)
  else
    match env.cached with
    | some analysis => .ok analysis
    | none => do
      let _ ← env.readFileOk
      let metadataFormat ← env.metadataResult
      let _ ← env.decodeOk
      let rhythmAnalysis ← if env.essentiaReady then env.essentiaResult else .ok {}
      .ok { format := metadataFormat, rhythm := some rhythmAnalysis }

/-- The per-track body of `analyzeTracks` (upload-routes.js): fetch details
when BPM is missing (SoundCloud result modelled by `scResult`), then attempt
advanced analysis for uploaded files, catching any analysis exception and
leaving `advancedAnalysis` null. -/
def analyzeTracksOne (env : AnalyzerEnv) (scResult : Except Unit DTrack) (track : DTrack) :
    DTrack :=
  let trackInfo :=
    if jsTruthyNum track.bpm = false ∧ track.id ≠ 0 then
      match scResult with
      | .error _ => { track with bpm := some 120, analyzed := false }
      | .ok detailedTrack => { detailedTrack with analyzed := true }
    else track
  let advancedAnalysis :=
    if track.uploaded ∧ jsTruthyStr track.filePath ∧ env.fileExists then
      match analyzeTrackFile env (jsRender track.filePath) with
      | .ok analysis => some analysis
      | .error _ => none
    else none
  { trackInfo with
    advancedAnalysis := advancedAnalysis,
    analyzed := trackInfo.analyzed || advancedAnalysis.isSome }

/-- An environment whose decode step fails. -/
def envDecodeFail : AnalyzerEnv := { decodeOk := .error "decode failed", essentiaReady := true }

/-- An uploaded track with a file path, as seen by `analyzeTracks`. -/
def trackUploaded : DTrack :=
  { id := 7, bpm := some 128, uploaded := true, filePath := some "/tmp/a.mp3" }

/-! ## The playback engine (browser AudioMixer)

State is per-chain gain/EQ/tempo plus two explicit queues: the Web-Audio
automation already scheduled on the gain/EQ AudioParams
(`setValueAtTime` / `linearRampToValueAtTime` calls), and the pending
`setTimeout` / `setInterval` work.  Nothing in the source ever cancels either
queue (`cancelScheduledValues`, `clearTimeout` and `clearInterval` never occur
for these), so a scheduled entry stays until its time arrives. -/

/-- A value placed on an AudioParam: either a plain number or one of the
equal-power curve samples `Math.cos((i/100) * PI/2)` / `Math.sin(...)`,
kept symbolic. -/
inductive GainVal where
  | q (v : ℚ)
  | cosHalfPi (i : ℕ)
  | sinHalfPi (i : ℕ)
deriving DecidableEq, Repr

/-- Real value of a scheduled gain sample. -/
noncomputable def GainVal.toReal : GainVal → ℝ
  | .q v => (v : ℝ)
  | .cosHalfPi i => Real.cos ((i : ℝ) / 100 * (Real.pi / 2))
  | .sinHalfPi i => Real.sin ((i : ℝ) / 100 * (Real.pi / 2))

/-- True for the trigonometric equal-power samples. -/
def GainVal.isTrigSample : GainVal → Bool
  | .q _ => false
  | _ => true

/-- Which AudioParam of which chain an automation event targets. -/
inductive RampTarget where
  | gainOf (node : ℕ)
  | lowEQOf (node : ℕ)
  | midEQOf (node : ℕ)
  | highEQOf (node : ℕ)
deriving DecidableEq, Repr

/-- The two AudioParam scheduling calls used by the source. -/
inductive RampKind where
  | setValueAtTime
  | linearRampToValueAtTime
deriving DecidableEq, Repr

/-- One scheduled automation event. -/
structure Ramp where
  target : RampTarget
  kind : RampKind
  time : ℚ
  value : GainVal
deriving DecidableEq, Repr

/-- equalPowerCrossfade(fromIndex, toIndex, startTime, endTime): initial
values, then 101 cos/sin ramp pairs across the duration. -/
def equalPowerCrossfade (fromIndex toIndex : ℕ) (startTime endTime : ℚ) : List Ramp :=
  let duration := endTime - startTime
  [⟨.gainOf fromIndex, .setValueAtTime, startTime, .q 1⟩,
   ⟨.gainOf toIndex, .setValueAtTime, startTime, .q 0⟩] ++
  (List.range 101).flatMap (fun i =>
    let time := startTime + ((i : ℚ) / 100) * duration
    [⟨.gainOf fromIndex, .linearRampToValueAtTime, time, .cosHalfPi i⟩,
     ⟨.gainOf toIndex, .linearRampToValueAtTime, time, .sinHalfPi i⟩])

/-- linearCrossfade(fromIndex, toIndex, startTime, endTime). -/
def linearCrossfade (fromIndex toIndex : ℕ) (startTime endTime : ℚ) : List Ramp :=
  [⟨.gainOf fromIndex, .setValueAtTime, startTime, .q 1⟩,
   ⟨.gainOf toIndex, .setValueAtTime, startTime, .q 0⟩,
   ⟨.gainOf fromIndex, .linearRampToValueAtTime, endTime, .q 0⟩,
   ⟨.gainOf toIndex, .linearRampToValueAtTime, endTime, .q 1⟩]

/-- cutEQTransition(fromIndex, toIndex, startTime, duration) — duration in
seconds; staged EQ drops, 0.7 jump of the incoming gain at the midpoint. -/
def cutEQTransition (fromIndex toIndex : ℕ) (startTime duration : ℚ) : List Ramp :=
  [⟨.highEQOf fromIndex, .setValueAtTime, startTime, .q 0⟩,
   ⟨.highEQOf fromIndex, .linearRampToValueAtTime, startTime + duration * (25/100), .q (-12)⟩,
   ⟨.midEQOf fromIndex, .setValueAtTime, startTime, .q 0⟩,
   ⟨.midEQOf fromIndex, .linearRampToValueAtTime, startTime + duration * (5/10), .q (-9)⟩,
   ⟨.gainOf toIndex, .setValueAtTime, startTime, .q 0⟩,
   ⟨.gainOf toIndex, .linearRampToValueAtTime, startTime + duration * (5/10), .q (7/10)⟩,
   ⟨.gainOf toIndex, .linearRampToValueAtTime, startTime + duration, .q 1⟩,
   ⟨.lowEQOf fromIndex, .setValueAtTime, startTime + duration * (5/10), .q 0⟩,
   ⟨.lowEQOf fromIndex, .linearRampToValueAtTime, startTime + duration * (75/100), .q (-12)⟩,
   ⟨.gainOf fromIndex, .setValueAtTime, startTime + duration * (5/10), .q 1⟩,
   ⟨.gainOf fromIndex, .linearRampToValueAtTime, startTime + duration, .q 0⟩]

/-- performVolumeTransition(transitionType, duration, fromIndex, toIndex):
the gain-curve dispatch.  Note the switch matches the strings
beatmatch_blend and beatmatch only; beatmatch_fade, harmonic_fade,
tempo_adjust, fade and simple all take the default (linear) branch. -/
def performVolumeTransition (transitionType : String) (duration : ℚ)
    (fromIndex toIndex : ℕ) (ctxTime : ℚ) : List Ramp :=
  let startTime := ctxTime
  let endTime := startTime + duration / 1000
  if transitionType = "beatmatch_blend" ∨ transitionType = "beatmatch" then
    equalPowerCrossfade fromIndex toIndex startTime endTime
  else if transitionType = "cut_eq" then
    cutEQTransition fromIndex toIndex startTime (duration / 1000)
  else if transitionType = "long_fade" then
    linearCrossfade fromIndex toIndex startTime endTime
  else
    linearCrossfade fromIndex toIndex startTime endTime

/-- Deferred work registered with setTimeout / setInterval during a
transition. -/
inductive TimerTask where
  | advanceAfterTransition (currentIndex nextIndex : ℕ)
  | beatsyncReturnRamp (nextIndex : ℕ) (startRate transitionDuration : ℚ)
deriving DecidableEq, Repr

/-- A pending timer: delay from registration plus its task. -/
structure MixTimer where
  delayMs : ℚ
  task : TimerTask
deriving DecidableEq, Repr

/-- A transition object as delivered to the mixer (the serialized plan
record; fields the plan may omit are optional). -/
structure PlanTransition where
  fromTrack : ℕ
  toTrack : ℕ
  transitionPoint : JNum := .nan
  bpmDifference : JNum := .nan
  sourceBpm : Option ℚ := none
  targetBpm : Option ℚ := none
  keyCompatibility : Option String := none
  transitionType : Option String := none
  transitionDuration : Option ℚ := none
deriving DecidableEq, Repr

/-- The AudioMixer playback state: transport flags, one chain per track
(gain, three EQ bands, playback rate, stored tempo adjustment), and the two
scheduling queues. -/
structure MixerState where
  numTracks : ℕ
  currentTrackIndex : ℕ := 0
  isPlaying : Bool := false
  isCrossfading : Bool := false
  ctxTime : ℚ := 0
  defaultTransitionTime : ℚ := 5000
  beatmatchingEnabled : Bool := true
  autoHarmonicMixing : Bool := true
  playing : List Bool := []
  currentTimes : List ℚ := []
  playbackRates : List ℚ := []
  soundTouchPresent : List Bool := []
  tempoAdjustments : List ℚ := []
  gains : List GainVal := []
  lowEQ : List ℚ := []
  midEQ : List ℚ := []
  highEQ : List ℚ := []
  scheduledRamps : List Ramp := []
  pendingTimers : List MixTimer := []
deriving DecidableEq, Repr

/-- resetTrackEffects(index): EQ bands to 0, playback rate and stored tempo
adjustment to 1, gain to 0. -/
def resetTrackEffects (st : MixerState) (index : ℕ) : MixerState :=
  { st with
    lowEQ := st.lowEQ.set index 0,
    midEQ := st.midEQ.set index 0,
    highEQ := st.highEQ.set index 0,
    playbackRates := st.playbackRates.set index 1,
    tempoAdjustments := st.tempoAdjustments.set index 1,
    gains := st.gains.set index (.q 0) }

/-- adjustTempo(tempoRatioArg): store the adjustment for the current track and,
without a SoundTouch processor, apply it to the playback rate. -/
def adjustTempo (st : MixerState) (tempoRate : ℚ) : MixerState :=
  let index := st.currentTrackIndex
  let st2 := { st with tempoAdjustments := st.tempoAdjustments.set index tempoRate }
  if st2.soundTouchPresent.getD index false then st2
  else { st2 with playbackRates := st2.playbackRates.set index tempoRate }

/-- nextTrack() from the AudioMixer: no-op with at most one track; otherwise
hard-cut to the following track (wrapping), resetting the outgoing chain and
setting the new chain's gain to 1.  It touches neither the scheduled
automation nor the pending timers. -/
def nextTrack (st : MixerState) : MixerState :=
  if st.numTracks ≤ 1 then st
  else
    let currentIndex := st.currentTrackIndex
    let nextIndex := (currentIndex + 1) % st.numTracks
    let st1 := { st with
      playing := st.playing.set currentIndex false,
      gains := st.gains.set currentIndex (.q 0) }
    let st2 := resetTrackEffects st1 currentIndex
    let st3 := { st2 with
      currentTimes := st2.currentTimes.set nextIndex 0,
      gains := st2.gains.set nextIndex (.q 1),
      currentTrackIndex := nextIndex }
    if st3.isPlaying then
      let st4 := { st3 with playing := st3.playing.set nextIndex true }
      if st4.tempoAdjustments.getD nextIndex 1 ≠ 1 then
        adjustTempo st4 (st4.tempoAdjustments.getD nextIndex 1)
      else st4
    else st3

/-- prepareBeatsyncTransition(transition, currentIndex, nextIndex): pull the
incoming track's rate to match (note the plan records carry no
sourceBpm/targetBpm fields, both default to 120 here), and register the
half-duration timer that ramps the rate back to 1 in ten steps. -/
def prepareBeatsyncTransition (st : MixerState) (transition : PlanTransition)
    (currentIndex nextIndex : ℕ) : MixerState :=
  let currentBpm := jsOr transition.sourceBpm 120
  let nextBpm := jsOr transition.targetBpm 120
  if 2 < ratAbs (nextBpm - currentBpm) then
    let tempoRate := currentBpm / nextBpm
    let transitionDuration := jsOr transition.transitionDuration st.defaultTransitionTime
    { st with
      tempoAdjustments := st.tempoAdjustments.set nextIndex tempoRate,
      playbackRates := st.playbackRates.set nextIndex tempoRate,
      pendingTimers := st.pendingTimers ++
        [⟨transitionDuration / 2, .beatsyncReturnRamp nextIndex tempoRate transitionDuration⟩] }
  else st

/-- prepareHarmonicTransition(transition, currentIndex, nextIndex): mid band
-3 dB on a clash, high band +2 dB on compatible/perfect. -/
def prepareHarmonicTransition (st : MixerState) (transition : PlanTransition)
    (currentIndex nextIndex : ℕ) : MixerState :=
  if transition.keyCompatibility = some "clash" then
    { st with midEQ := st.midEQ.set nextIndex (-3) }
  else if transition.keyCompatibility = some "compatible" ∨
      transition.keyCompatibility = some "perfect" then
    { st with highEQ := st.highEQ.set nextIndex 2 }
  else st

/-- startAdvancedTransition(transition): start the next chain, apply the
beatmatch/harmonic preparations, schedule the volume curves, and register the
end-of-transition timeout.  Nothing here or elsewhere removes previously
scheduled automation. -/
def startAdvancedTransition (st : MixerState) (transition : PlanTransition) : MixerState :=
  let currentIndex := st.currentTrackIndex
  let nextIndex := (currentIndex + 1) % st.numTracks
  let transitionType := jsOrStr transition.transitionType "fade"
  let transitionDuration := jsOr transition.transitionDuration st.defaultTransitionTime
  let st1 := { st with playing := st.playing.set nextIndex true }
  let st2 :=
    if st1.beatmatchingEnabled ∧ transition.bpmDifference.abs.gtb 2 then
      prepareBeatsyncTransition st1 transition currentIndex nextIndex
    else st1
  let st3 :=
    if st2.autoHarmonicMixing ∧ jsTruthyStr transition.keyCompatibility then
      prepareHarmonicTransition st2 transition currentIndex nextIndex
    else st2
  let st4 := { st3 with
    scheduledRamps := st3.scheduledRamps ++
      performVolumeTransition transitionType transitionDuration currentIndex nextIndex
        st3.ctxTime }
  { st4 with
    pendingTimers := st4.pendingTimers ++
      [⟨transitionDuration, .advanceAfterTransition currentIndex nextIndex⟩] }

/-- A three-track mixer mid-playback: chain 0 live at gain 1, no automation
scheduled yet. -/
def stMix3 : MixerState :=
  { numTracks := 3, currentTrackIndex := 0, isPlaying := true, isCrossfading := true,
    ctxTime := 100, defaultTransitionTime := 5000,
    beatmatchingEnabled := true, autoHarmonicMixing := true,
    playing := [true, false, false], currentTimes := [120, 0, 0],
    playbackRates := [1, 1, 1], soundTouchPresent := [false, false, false],
    tempoAdjustments := [1, 1, 1], gains := [.q 1, .q 0, .q 0],
    lowEQ := [0, 0, 0], midEQ := [0, 0, 0], highEQ := [0, 0, 0],
    scheduledRamps := [], pendingTimers := [] }

/-- A plan transition of type beatmatch_blend, 6 s, matching BPM, perfect key
compatibility. -/
def planBeatmatch : PlanTransition :=
  { fromTrack := 11, toTrack := 22, transitionPoint := .num 144000,
    bpmDifference := .num 0, keyCompatibility := some "perfect",
    transitionType := some "beatmatch_blend", transitionDuration := some 6000 }

end DJai

namespace DJai

/-! ## Claims C4 and C5: key compatibility -/

/-- Claim C4.  The spec says that a relative major/minor pair — two keys that
map to the same harmonic-wheel position with opposite modes, such as A minor
and C major (both position 8) — is judged `Compatible`.  The code disagrees:
its relative-key branch looks for the target at `sourceHour + 3` (mod 12)
instead of at the same hour, so the genuine relative pair A minor (08A) /
C major (08B) falls through every branch and is judged `moderate`.  This also
contradicts the comment right above the branch ("Relative major/minor are
compatible").  The theorem evaluates the embedded code at that failing input. -/
theorem analyzeKeyCompatibility_relative_pair_is_moderate :
    analyzeKeyCompatibility (some "A") (some "minor") (some "C") (some "major") =
      .ok "moderate" ∧
    keyToCamelot (some "A") (some "minor") = .ok (some "08A") ∧
    keyToCamelot (some "C") (some "major") = .ok (some "08B") := by
  refine ⟨rfl, rfl, rfl⟩

/-- Claim C5.  The spec says `keyCompatibility` is total and never throws,
returning one of the five ratings.  The code throws: for E minor (09A) against
C major (08B) the relative-key branch computes `(9 + 3) % 12 = 0` and then
executes `relativeHour = 12` on a `const` binding, raising a TypeError.  The
theorem evaluates the embedded code at that failing input. -/
theorem analyzeKeyCompatibility_throws_on_const_reassignment :
    analyzeKeyCompatibility (some "E") (some "minor") (some "C") (some "major") =
      .error "TypeError: Assignment to constant variable." := rfl

/-! ## Supporting lemmas for the transition planner -/

/-- jsOr on a present non-zero value returns the value. -/
theorem jsOr_some_of_ne {v : ℚ} (d : ℚ) (h : v ≠ 0) : jsOr (some v) d = v := by
  simp [jsOr, h]

/-- On the fallback path (at least one side without advanced analysis) the
generated transition record is fully determined by the two tracks. -/
theorem transitionFor_fallback (a b : DTrack)
    (h : a.advancedAnalysis = none ∨ b.advancedAnalysis = none) :
    transitionFor a b = .ok
      { fromTrack := a.id, toTrack := b.id,
        transitionPoint := .num (jsFloor (jsOr a.duration 180000 * (8/10))),
        bpmDifference := .num (jsOr b.bpm 120 - jsOr a.bpm 120),
        sourceKey := none, targetKey := none, keyCompatibility := none,
        transitionType :=
          if ratAbs (jsOr b.bpm 120 - jsOr a.bpm 120) < 5 then "beatmatch"
          else if 15 < ratAbs (jsOr b.bpm 120 - jsOr a.bpm 120) then "long_fade" else "fade",
        transitionDuration :=
          if ratAbs (jsOr b.bpm 120 - jsOr a.bpm 120) < 5 then 6000
          else if 15 < ratAbs (jsOr b.bpm 120 - jsOr a.bpm 120) then 12000 else 8000 } := by
  have hD : (if ratAbs (jsOr b.bpm 120 - jsOr a.bpm 120) < 5 then (6000 : ℚ)
      else if 15 < ratAbs (jsOr b.bpm 120 - jsOr a.bpm 120) then 12000 else 8000) ≠ 0 := by
    split_ifs <;> norm_num
  rcases h with h | h
  · simp [transitionFor, h, fallbackTransitionInfo, Bind.bind, Except.bind,
      jsOr_some_of_ne _ hD]
  · cases ha : a.advancedAnalysis with
    | none =>
      simp [transitionFor, ha, fallbackTransitionInfo, Bind.bind, Except.bind,
        jsOr_some_of_ne _ hD]
    | some sa =>
      simp [transitionFor, ha, h, fallbackTransitionInfo, Bind.bind, Except.bind,
        jsOr_some_of_ne _ hD]

/-- findBestTransition never sets a duration on its result. -/
theorem findBestTransition_duration_none {sa ta : Analysis} {info : TransitionInfo}
    (h : findBestTransition sa ta = .ok info) : info.duration = none := by
  rcases hsr : sa.rhythm with _ | sourceRhythm
  · simp [findBestTransition, hsr] at h
    subst h
    rfl
  · rcases htr : ta.rhythm with _ | targetRhythm
    · simp [findBestTransition, hsr, htr] at h
      subst h
      rfl
    · rcases hsb : sourceRhythm.beats with _ | beats
      · simp [findBestTransition, hsr, htr, hsb] at h
        subst h
        rfl
      · rcases htb : targetRhythm.beats with _ | tbeats
        · simp [findBestTransition, hsr, htr, hsb, htb] at h
          subst h
          rfl
        · rcases hk : analyzeKeyCompatibility sourceRhythm.key sourceRhythm.scale
              targetRhythm.key targetRhythm.scale with e | k <;>
            simp [findBestTransition, hsr, htr, hsb, htb, hk, Bind.bind, Except.bind] at h
          subst h
          rfl

/-- Claim C3, counterexample.  The spec says the 6000/12000/8000 duration rule
also holds when both tracks have advanced analysis.  It does not: on the
advanced path `findBestTransition` returns no duration at all, so the planner
falls back to `transitionInfo.duration || 8000`.  For two analyzed tracks at
identical BPM (delta 0, which the rule maps to 6000) the generated duration is
8000. -/
theorem advanced_path_duration_ignores_bpm_rule :
    (transitionFor trackAdv1 trackAdv2).map
        (fun t => (t.bpmDifference, t.transitionDuration, t.transitionType)) =
      .ok (JNum.num 0, 8000, "beatmatch_blend") ∧ (8000 : ℚ) ≠ 6000 := by
  constructor
  · have hk : analyzeKeyCompatibility (some "C") (some "major") (some "C") (some "major") =
        .ok "perfect" := rfl
    simp [transitionFor, trackAdv1, trackAdv2, analysisC, findBestTransition, hk,
      Bind.bind, Except.bind, Except.map, JNum.ofOpt, JNum.sub, JNum.abs, JNum.ltb,
      determineTransitionType, jsOr]
  · norm_num

/-- Claim C3, amended.  The duration rule (6000 when the absolute BPM delta is
below 5, 12000 when above 15, 8000 otherwise) holds exactly on the fallback
path, i.e. when at least one of the two tracks lacks advanced analysis; when
both tracks have advanced analysis the generated duration is always 8000,
independent of the BPM delta. -/
theorem transitionDuration_rule_by_path :
    (∀ a b t, (a.advancedAnalysis = none ∨ b.advancedAnalysis = none) →
      transitionFor a b = .ok t →
      t.bpmDifference = .num (jsOr b.bpm 120 - jsOr a.bpm 120) ∧
      t.transitionDuration =
        (if ratAbs (jsOr b.bpm 120 - jsOr a.bpm 120) < 5 then 6000
         else if 15 < ratAbs (jsOr b.bpm 120 - jsOr a.bpm 120) then 12000 else 8000)) ∧
    (∀ a b sa ta t, a.advancedAnalysis = some sa → b.advancedAnalysis = some ta →
      transitionFor a b = .ok t → t.transitionDuration = 8000) := by
  constructor
  · intro a b t h hok
    rw [transitionFor_fallback a b h] at hok
    have ht0 := (Except.ok.injEq _ _).mp hok.symm
    subst ht0
    exact ⟨rfl, rfl⟩
  · intro a b sa ta t ha hb hok
    cases hfb : findBestTransition sa ta with
    | error e =>
      simp [transitionFor, ha, hb, hfb, Bind.bind, Except.bind] at hok
    | ok info =>
      simp [transitionFor, ha, hb, hfb, Bind.bind, Except.bind] at hok
      have hd := findBestTransition_duration_none hfb
      subst hok
      simp [hd, jsOr]

/-- Claim C3, amended, witness: fallback pair with BPM delta 10 gets 8000. -/
theorem transitionDuration_rule_by_path_witness :
    (trackFall1.advancedAnalysis = none ∨ trackFall2.advancedAnalysis = none) ∧
    (⟨1, 2, .num 144000, .num 10, none, none, none, "fade", 8000⟩ :
        TransitionRec).bpmDifference = .num (jsOr trackFall2.bpm 120 - jsOr trackFall1.bpm 120) ∧
    (⟨1, 2, .num 144000, .num 10, none, none, none, "fade", 8000⟩ :
        TransitionRec).transitionDuration =
      (if ratAbs (jsOr trackFall2.bpm 120 - jsOr trackFall1.bpm 120) < 5 then 6000
       else if 15 < ratAbs (jsOr trackFall2.bpm 120 - jsOr trackFall1.bpm 120) then 12000
       else 8000) := by
  have hf : transitionFor trackFall1 trackFall2 =
      .ok ⟨1, 2, .num 144000, .num 10, none, none, none, "fade", 8000⟩ := by
    rw [transitionFor_fallback trackFall1 trackFall2 (Or.inl rfl)]
    simp [trackFall1, trackFall2]
    norm_num [jsOr, jsFloor, ratAbs]
  exact ⟨Or.inl rfl,
    transitionDuration_rule_by_path.1 trackFall1 trackFall2 _ (Or.inl rfl) hf⟩


/-! ## Supporting lemmas for the mix-order planner -/

/-- Stable insertion permutes. -/
theorem insertSorted_perm (le : α → α → Bool) (x : α) (l : List α) :
    (insertSorted le x l).Perm (x :: l) := by
  induction l with
  | nil => exact List.Perm.refl _
  | cons y ys ih =>
    rw [insertSorted]
    split
    · exact List.Perm.refl _
    · exact (ih.cons y).trans (List.Perm.swap x y ys)

/-- The insertion fold permutes. -/
theorem foldInsert_perm (le : α → α → Bool) :
    ∀ (l acc : List α),
      (l.foldl (fun acc x => insertSorted le x acc) acc).Perm (l ++ acc) := by
  intro l
  induction l with
  | nil => intro acc; simp
  | cons x xs ih =>
    intro acc
    simp only [List.foldl_cons]
    refine (ih _).trans ?_
    refine ((insertSorted_perm le x acc).append_left xs).trans ?_
    exact List.perm_middle

/-- The modelled Array.prototype.sort permutes its input. -/
theorem jsSortBy_perm (key : α → ℚ) (l : List α) : (jsSortBy key l).Perm l := by
  simpa using foldInsert_perm (fun a b => decide (key a ≤ key b)) l []

/-- Whatever the per-position search returns is an unused element of the track
list. -/
theorem findBestForPosition_spec {tracks : List DTrack} {usedTracks : List ℕ}
    {f : ℕ → ℚ} {t : DTrack} (h : findBestForPosition tracks usedTracks f = some t) :
    t ∈ tracks ∧ t.id ∉ usedTracks := by
  suffices H : ∀ (l : List DTrack) (acc : ℚ × Option DTrack),
      (∀ u, acc.2 = some u → u ∈ tracks ∧ u.id ∉ usedTracks) →
      (∀ x ∈ l, x ∈ tracks) →
      ∀ u, (l.foldl (bestStep usedTracks f) acc).2 = some u →
        u ∈ tracks ∧ u.id ∉ usedTracks by
    exact H tracks (-1, none) (by simp) (fun x hx => hx) t h
  intro l
  induction l with
  | nil => intro acc hacc _ u hu; exact hacc u hu
  | cons x xs ih =>
    intro acc hacc hsub u hu
    simp only [List.foldl_cons] at hu
    refine ih _ ?_ (fun y hy => hsub y (List.mem_cons_of_mem _ hy)) u hu
    intro v hv
    rw [bestStep] at hv
    split at hv
    · next hc =>
      simp only [Option.some.injEq] at hv
      subst hv
      exact ⟨hsub x (List.mem_cons_self _ _), hc.1⟩
    · exact hacc v hv

/-- Every placed track comes from the track list. -/
theorem greedyPlace_subset (tracks : List DTrack) (score : ℕ → ℕ → ℚ) :
    ∀ (fuel position : ℕ) (usedTracks : List ℕ),
      ∀ t ∈ (greedyPlace tracks score position fuel usedTracks).1, t ∈ tracks := by
  intro fuel
  induction fuel with
  | zero => intro position usedTracks t ht; simp [greedyPlace] at ht
  | succ fuel ih =>
    intro position usedTracks t ht
    rw [greedyPlace] at ht
    cases hfb : findBestForPosition tracks usedTracks (fun tid => score tid position) with
    | none => rw [hfb] at ht; exact ih _ _ t ht
    | some bestTrack =>
      rw [hfb] at ht
      rcases List.mem_cons.mp ht with h | h
      · exact h ▸ (findBestForPosition_spec hfb).1
      · exact ih _ _ t h

/-- The final used set is the placed ids together with the initial used set. -/
theorem greedyPlace_used_iff (tracks : List DTrack) (score : ℕ → ℕ → ℚ) :
    ∀ (fuel position : ℕ) (usedTracks : List ℕ) (x : ℕ),
      x ∈ (greedyPlace tracks score position fuel usedTracks).2 ↔
        x ∈ (greedyPlace tracks score position fuel usedTracks).1.map DTrack.id ∨
          x ∈ usedTracks := by
  intro fuel
  induction fuel with
  | zero => intro position usedTracks x; simp [greedyPlace]
  | succ fuel ih =>
    intro position usedTracks x
    rw [greedyPlace]
    cases hfb : findBestForPosition tracks usedTracks (fun tid => score tid position) with
    | none => simpa using ih (position + 1) usedTracks x
    | some bestTrack =>
      simp only [List.map_cons, List.mem_cons]
      rw [ih (position + 1) (bestTrack.id :: usedTracks) x]
      simp only [List.mem_cons]
      tauto

/-- The placed ids are distinct and disjoint from the initial used set. -/
theorem greedyPlace_nodup (tracks : List DTrack) (score : ℕ → ℕ → ℚ) :
    ∀ (fuel position : ℕ) (usedTracks : List ℕ),
      ((greedyPlace tracks score position fuel usedTracks).1.map DTrack.id).Nodup ∧
        ∀ x ∈ (greedyPlace tracks score position fuel usedTracks).1.map DTrack.id,
          x ∉ usedTracks := by
  intro fuel
  induction fuel with
  | zero => intro position usedTracks; simp [greedyPlace]
  | succ fuel ih =>
    intro position usedTracks
    rw [greedyPlace]
    cases hfb : findBestForPosition tracks usedTracks (fun tid => score tid position) with
    | none => exact ih (position + 1) usedTracks
    | some bestTrack =>
      obtain ⟨ihnd, ihdisj⟩ := ih (position + 1) (bestTrack.id :: usedTracks)
      constructor
      · simp only [List.map_cons, List.nodup_cons]
        refine ⟨fun hmem => ?_, ihnd⟩
        exact (ihdisj _ hmem) (List.mem_cons_self _ _)
      · intro x hx
        simp only [List.map_cons, List.mem_cons] at hx
        rcases hx with h | h
        · exact h ▸ (findBestForPosition_spec hfb).2
        · intro hxu
          exact (ihdisj x h) (List.mem_cons_of_mem _ hxu)

/-! ## Claim C2: the planner returns a permutation -/

/-- Claim C2.  For every non-empty input with pairwise-distinct ids,
`calculateMixOrder` returns a permutation of the input ids: the two-track
branch is a sort of a copy, and in the weighted-vote branch the greedy
placement only places distinct unused tracks and the trailing loop appends
every track left unplaced. -/
theorem calculateMixOrder_permutes_ids (analyzedTracks : List DTrack)
    (hne : analyzedTracks ≠ [])
    (hnd : (analyzedTracks.map DTrack.id).Nodup) :
    ((calculateMixOrder analyzedTracks).map DTrack.id).Perm
      (analyzedTracks.map DTrack.id) := by
  by_cases hlen : analyzedTracks.length < 3
  · rw [calculateMixOrder, if_pos hlen]
    exact (jsSortBy_perm _ _).map _
  · rw [calculateMixOrder, if_neg hlen]
    simp only []
    set tracks := (jsArrayCopy analyzedTracks).map enrichTrack with hT
    have hids : tracks.map DTrack.id = analyzedTracks.map DTrack.id := by
      rw [hT, jsArrayCopy, List.map_map]
      rfl
    set scores := fun trackId position =>
      positionScore (createEnergyCurve tracks) (minimizeBpmJumps tracks)
        (if analyzedTracks.any (fun t => t.advancedAnalysis.isSome) then harmonicMixing tracks
         else tracks)
        (analyzedTracks.any (fun t => t.advancedAnalysis.isSome)) trackId position with hS
    set placed := greedyPlace tracks scores 0 tracks.length [] with hP
    have hndT : (tracks.map DTrack.id).Nodup := hids ▸ hnd
    obtain ⟨hpnd, _⟩ := greedyPlace_nodup tracks scores tracks.length 0 []
    have hsub := greedyPlace_subset tracks scores tracks.length 0 []
    have husediff := greedyPlace_used_iff tracks scores tracks.length 0 []
    rw [← hids]
    have hfilsub : List.Sublist
        ((tracks.filter (fun t => decide (t.id ∉ placed.2))).map DTrack.id)
        (tracks.map DTrack.id) := (List.filter_sublist _).map _
    refine (List.perm_ext_iff_of_nodup ?_ hndT).2 ?_
    · rw [List.map_append]
      refine List.Nodup.append hpnd (List.Nodup.sublist hfilsub hndT) ?_
      intro x hx1 hx2
      have hxu : x ∈ placed.2 := by
        rw [husediff x]
        exact Or.inl hx1
      simp only [List.mem_map, List.mem_filter, decide_eq_true_eq] at hx2
      obtain ⟨t, ⟨_, htu⟩, rfl⟩ := hx2
      exact htu hxu
    · intro a
      rw [List.map_append]
      simp only [List.mem_append, List.mem_map, List.mem_filter, decide_eq_true_eq]
      constructor
      · rintro (h | ⟨t, ⟨htT, _⟩, rfl⟩)
        · obtain ⟨t, htP, rfl⟩ := h
          exact ⟨t, hsub t htP, rfl⟩
        · exact ⟨t, htT, rfl⟩
      · rintro ⟨t, htT, rfl⟩
        by_cases hu : t.id ∈ placed.2
        · left
          rcases (husediff t.id).1 hu with h | h
          · exact List.mem_map.mp h
          · simp at h
        · right
          exact ⟨t, ⟨htT, hu⟩, rfl⟩

/-- Claim C2, witness at the three-track scenario (ids 1, 2, 3). -/
theorem calculateMixOrder_permutes_ids_witness :
    [trackMixA, trackMixB, trackMixC] ≠ [] ∧
    (([trackMixA, trackMixB, trackMixC].map DTrack.id).Nodup) ∧
    ((calculateMixOrder [trackMixA, trackMixB, trackMixC]).map DTrack.id).Perm
      ([trackMixA, trackMixB, trackMixC].map DTrack.id) :=
  ⟨by simp, by simp [trackMixA, trackMixB, trackMixC],
    calculateMixOrder_permutes_ids _ (by simp)
      (by simp [trackMixA, trackMixB, trackMixC])⟩

/-! ## Claim C9: the planner does not mutate its input -/

/-- Claim C9.  `calculateMixOrder` never mutates its input: with the caller's
array threaded through the call, both branches hand every in-place operation a
spread copy and build only fresh track objects, so the caller's array (and the
track objects it holds) is returned exactly as passed, while the result agrees
with the pure planner. -/
theorem calculateMixOrder_preserves_caller (analyzedTracks : List DTrack) :
    (calculateMixOrderCall analyzedTracks).1 = analyzedTracks ∧
    (calculateMixOrderCall analyzedTracks).2 = calculateMixOrder analyzedTracks := by
  constructor
  · rw [calculateMixOrderCall]
    split
    · rfl
    · rfl
  · rw [calculateMixOrderCall, calculateMixOrder]
    split
    · rfl
    · rfl


/-! ## Claim C7: analysis failure handling -/

/-- Claim C7, counterexample.  The spec says the per-track analysis returns a
default features object (bpm 120, optional fields empty) instead of
propagating a failure.  `analyzeTrackFile` does the opposite: its catch block
rethrows, so a decode failure comes back as the error itself, not as a
defaulted features object. -/
theorem analyzeTrackFile_propagates_decode_failure :
    analyzeTrackFile envDecodeFail "/tmp/a.mp3" = .error "decode failed" ∧
    (analyzeTrackFile envDecodeFail "/tmp/a.mp3").isOk = false :=
  ⟨rfl, rfl⟩

/-- Claim C7, amended.  The recovery the spec describes lives one level up:
whenever `analyzeTrackFile` throws, the caller `analyzeTracks` catches the
exception and returns the track normally with `advancedAnalysis = null`
(BPM defaulting to 120 happens later, at mix-order time), so an analysis
failure is still never fatal to planning. -/
theorem analyzeTracks_catches_analysis_failure (env : AnalyzerEnv)
    (scResult : Except Unit DTrack) (track : DTrack) (e : String)
    (hthrow : analyzeTrackFile env (jsRender track.filePath) = .error e) :
    (analyzeTracksOne env scResult track).advancedAnalysis = none := by
  simp only [analyzeTracksOne.eq_def, hthrow]
  split <;> rfl

/-- Claim C7, amended, witness: decode failure on an uploaded track. -/
theorem analyzeTracks_catches_analysis_failure_witness :
    (analyzeTracksOne envDecodeFail (.error ()) trackUploaded).advancedAnalysis = none :=
  analyzeTracks_catches_analysis_failure envDecodeFail (.error ()) trackUploaded
    "decode failed" rfl


/-! ## Supporting lemmas for the playback engine -/

/-- Indexing after an in-range in-place write returns the written value. -/
theorem getElem?_set_self_of_lt {α : Type} (l : List α) (i : ℕ) (a : α)
    (h : i < l.length) : (l.set i a)[i]? = some a := by
  simp [List.getElem?_set_self', List.getElem?_eq_getElem h]

/-- nextTrack touches neither the scheduled automation nor the pending
timers. -/
theorem nextTrack_queues (st : MixerState) :
    (nextTrack st).scheduledRamps = st.scheduledRamps ∧
    (nextTrack st).pendingTimers = st.pendingTimers := by
  simp only [nextTrack, resetTrackEffects, adjustTempo]
  split_ifs <;> exact ⟨rfl, rfl⟩

/-- With two or more tracks, nextTrack advances the index by one modulo the
track count, forces the new chain's gain to 1, and resets the outgoing
chain's gain, EQ bands, playback rate and stored tempo adjustment. -/
theorem nextTrack_spec (st : MixerState)
    (h2 : 2 ≤ st.numTracks) (hcur : st.currentTrackIndex < st.numTracks)
    (hg : st.gains.length = st.numTracks)
    (hlo : st.lowEQ.length = st.numTracks)
    (hmid : st.midEQ.length = st.numTracks)
    (hhi : st.highEQ.length = st.numTracks)
    (hpr : st.playbackRates.length = st.numTracks)
    (hta : st.tempoAdjustments.length = st.numTracks) :
    (nextTrack st).currentTrackIndex = (st.currentTrackIndex + 1) % st.numTracks ∧
    (nextTrack st).gains[(st.currentTrackIndex + 1) % st.numTracks]? = some (.q 1) ∧
    (nextTrack st).gains[st.currentTrackIndex]? = some (.q 0) ∧
    (nextTrack st).lowEQ[st.currentTrackIndex]? = some 0 ∧
    (nextTrack st).midEQ[st.currentTrackIndex]? = some 0 ∧
    (nextTrack st).highEQ[st.currentTrackIndex]? = some 0 ∧
    (nextTrack st).playbackRates[st.currentTrackIndex]? = some 1 ∧
    (nextTrack st).tempoAdjustments[st.currentTrackIndex]? = some 1 := by
  have hn1 : ¬ st.numTracks ≤ 1 := by omega
  have hxlt : (st.currentTrackIndex + 1) % st.numTracks < st.numTracks :=
    Nat.mod_lt _ (by omega)
  have hxc : (st.currentTrackIndex + 1) % st.numTracks ≠ st.currentTrackIndex := by
    intro h
    rcases Nat.lt_or_ge (st.currentTrackIndex + 1) st.numTracks with hlt | hge
    · rw [Nat.mod_eq_of_lt hlt] at h
      omega
    · have hEq : st.currentTrackIndex + 1 = st.numTracks := by omega
      rw [hEq, Nat.mod_self] at h
      omega
  have hcx : st.currentTrackIndex ≠ (st.currentTrackIndex + 1) % st.numTracks := hxc.symm
  simp only [nextTrack, if_neg hn1, resetTrackEffects, adjustTempo]
  split_ifs <;>
    refine ⟨rfl, ?_, ?_, ?_, ?_, ?_, ?_, ?_⟩ <;>
    simp_all [getElem?_set_self_of_lt, List.getElem?_set_ne, List.length_set]

/-- startAdvancedTransition leaves the track count, current index, the gain
values and the low band untouched, and preserves the lengths of the per-chain
lists. -/
theorem startAdvancedTransition_fields (st : MixerState) (transition : PlanTransition) :
    (startAdvancedTransition st transition).numTracks = st.numTracks ∧
    (startAdvancedTransition st transition).currentTrackIndex = st.currentTrackIndex ∧
    (startAdvancedTransition st transition).gains = st.gains ∧
    (startAdvancedTransition st transition).lowEQ = st.lowEQ ∧
    (startAdvancedTransition st transition).midEQ.length = st.midEQ.length ∧
    (startAdvancedTransition st transition).highEQ.length = st.highEQ.length ∧
    (startAdvancedTransition st transition).playbackRates.length =
      st.playbackRates.length ∧
    (startAdvancedTransition st transition).tempoAdjustments.length =
      st.tempoAdjustments.length := by
  simp only [startAdvancedTransition, prepareBeatsyncTransition, prepareHarmonicTransition]
  split_ifs <;> simp [List.length_set]

/-! ## Claim C6: the gain curve applied per transition type -/

/-- Claim C6, counterexample.  The spec says both BeatmatchBlend and
BeatmatchFade get the equal-power cos/sin curve.  The switch in
`performVolumeTransition` matches only `beatmatch_blend` and `beatmatch`;
`beatmatch_fade` (the type `determineTransitionType` produces for tempo Good
without Perfect key) falls through to the default branch and gets the plain
linear crossfade, whose schedule contains no trigonometric sample at all. -/
theorem beatmatch_fade_gets_linear_curve :
    determineTransitionType "good" "compatible" = "beatmatch_fade" ∧
    performVolumeTransition "beatmatch_fade" 8000 0 1 0 =
      linearCrossfade 0 1 0 (0 + 8000 / 1000) ∧
    (performVolumeTransition "beatmatch_fade" 8000 0 1 0).all
      (fun r => !r.value.isTrigSample) = true ∧
    performVolumeTransition "beatmatch_fade" 8000 0 1 0 ≠ [] := by
  refine ⟨rfl, rfl, rfl, ?_⟩
  simp [performVolumeTransition, linearCrossfade]

/-- Claim C6, amended.  The equal-power curve — outgoing gain cos, incoming
gain sin, parameterized over [0, pi/2] in 101 steps across the duration — is
applied exactly to `beatmatch_blend` (BeatmatchBlend) and to the fallback type
`beatmatch`; `beatmatch_fade` (BeatmatchFade) gets the linear crossfade
instead. -/
theorem equal_power_curve_by_type (d c : ℚ) (fi ti : ℕ) (i : ℕ) (h : i < 101) :
    performVolumeTransition "beatmatch_blend" d fi ti c =
      equalPowerCrossfade fi ti c (c + d / 1000) ∧
    performVolumeTransition "beatmatch" d fi ti c =
      equalPowerCrossfade fi ti c (c + d / 1000) ∧
    performVolumeTransition "beatmatch_fade" d fi ti c =
      linearCrossfade fi ti c (c + d / 1000) ∧
    (⟨.gainOf fi, .linearRampToValueAtTime, c + ((i : ℚ) / 100) * (c + d / 1000 - c),
        .cosHalfPi i⟩ : Ramp) ∈ equalPowerCrossfade fi ti c (c + d / 1000) ∧
    (⟨.gainOf ti, .linearRampToValueAtTime, c + ((i : ℚ) / 100) * (c + d / 1000 - c),
        .sinHalfPi i⟩ : Ramp) ∈ equalPowerCrossfade fi ti c (c + d / 1000) ∧
    GainVal.toReal (.cosHalfPi i) = Real.cos ((i : ℝ) / 100 * (Real.pi / 2)) ∧
    GainVal.toReal (.sinHalfPi i) = Real.sin ((i : ℝ) / 100 * (Real.pi / 2)) := by
  refine ⟨rfl, rfl, rfl, ?_, ?_, rfl, rfl⟩
  · simp only [equalPowerCrossfade, List.mem_append, List.mem_flatMap, List.mem_range]
    exact Or.inr ⟨i, h, by simp⟩
  · simp only [equalPowerCrossfade, List.mem_append, List.mem_flatMap, List.mem_range]
    exact Or.inr ⟨i, h, by simp⟩

/-- Claim C6, amended, witness at step 50 of a 6 s blend. -/
theorem equal_power_curve_by_type_witness :
    GainVal.toReal (.cosHalfPi 50) = Real.cos (((50 : ℕ) : ℝ) / 100 * (Real.pi / 2)) ∧
    (⟨.gainOf 0, .linearRampToValueAtTime,
        0 + (((50 : ℕ) : ℚ) / 100) * (0 + 6000 / 1000 - 0), .cosHalfPi 50⟩ : Ramp) ∈
      equalPowerCrossfade 0 1 0 (0 + 6000 / 1000) :=
  ⟨(equal_power_curve_by_type 6000 0 0 1 50 (by decide)).2.2.2.2.2.1,
   (equal_power_curve_by_type 6000 0 0 1 50 (by decide)).2.2.2.1⟩

/-! ## Claim C8: user skip during an in-flight transition -/

/-- Claim C8, counterexample.  The spec requires a skip during a transition to
abort all remaining scheduled ramps so that no previously scheduled automation
fires afterwards.  The code cancels nothing: after starting a beatmatch
transition and then skipping, both the scheduled gain automation and the
pending end-of-transition timer are still queued (the source never calls
cancelScheduledValues or clearTimeout on them). -/
theorem skip_leaves_scheduled_automation_pending :
    (nextTrack (startAdvancedTransition stMix3 planBeatmatch)).scheduledRamps ≠ [] ∧
    (nextTrack (startAdvancedTransition stMix3 planBeatmatch)).pendingTimers ≠ [] := by
  obtain ⟨hr, ht⟩ := nextTrack_queues (startAdvancedTransition stMix3 planBeatmatch)
  rw [hr, ht]
  constructor
  · have hra : (startAdvancedTransition stMix3 planBeatmatch).scheduledRamps =
        equalPowerCrossfade 0 1 100 (100 + 6000 / 1000) := by
      simp only [startAdvancedTransition, prepareBeatsyncTransition,
        prepareHarmonicTransition, stMix3, planBeatmatch]
      split_ifs <;> rfl
    rw [hra]
    simp [equalPowerCrossfade]
  · simp only [startAdvancedTransition, prepareBeatsyncTransition,
      prepareHarmonicTransition, stMix3, planBeatmatch]
    split_ifs <;> simp

/-- Claim C8, amended.  A skip during an in-flight transition does force the
gains immediately — the target chain to 1, the outgoing chain to 0, index
advanced — but it does not cancel the transition: every ramp already scheduled
on the Web-Audio params and every pending timer survives the skip unchanged
and will still fire afterwards. -/
theorem skip_forces_gains_but_keeps_automation (st : MixerState)
    (transition : PlanTransition)
    (h2 : 2 ≤ st.numTracks) (hcur : st.currentTrackIndex < st.numTracks)
    (hg : st.gains.length = st.numTracks)
    (hlo : st.lowEQ.length = st.numTracks)
    (hmid : st.midEQ.length = st.numTracks)
    (hhi : st.highEQ.length = st.numTracks)
    (hpr : st.playbackRates.length = st.numTracks)
    (hta : st.tempoAdjustments.length = st.numTracks) :
    (nextTrack (startAdvancedTransition st transition)).scheduledRamps =
      (startAdvancedTransition st transition).scheduledRamps ∧
    (nextTrack (startAdvancedTransition st transition)).pendingTimers =
      (startAdvancedTransition st transition).pendingTimers ∧
    (nextTrack (startAdvancedTransition st transition)).currentTrackIndex =
      (st.currentTrackIndex + 1) % st.numTracks ∧
    (nextTrack (startAdvancedTransition st transition)).gains[(st.currentTrackIndex + 1) %
      st.numTracks]? = some (.q 1) ∧
    (nextTrack (startAdvancedTransition st transition)).gains[st.currentTrackIndex]? =
      some (.q 0) := by
  obtain ⟨hn, hc, hgains, hlow, hmidl, hhil, hprl, htal⟩ :=
    startAdvancedTransition_fields st transition
  obtain ⟨hq1, hq2⟩ := nextTrack_queues (startAdvancedTransition st transition)
  have hspec := nextTrack_spec (startAdvancedTransition st transition)
    (by rw [hn]; exact h2) (by rw [hn, hc]; exact hcur)
    (by rw [hn, hgains]; exact hg) (by rw [hn, hlow]; exact hlo)
    (by rw [hn, hmidl]; exact hmid) (by rw [hn, hhil]; exact hhi)
    (by rw [hn, hprl]; exact hpr) (by rw [hn, htal]; exact hta)
  rw [hn, hc] at hspec
  exact ⟨hq1, hq2, hspec.1, hspec.2.1, hspec.2.2.1⟩

/-- Claim C8, amended, witness: a beatmatch transition on the three-track
mixer followed by a skip. -/
theorem skip_forces_gains_but_keeps_automation_witness :
    (nextTrack (startAdvancedTransition stMix3 planBeatmatch)).scheduledRamps =
      (startAdvancedTransition stMix3 planBeatmatch).scheduledRamps ∧
    (nextTrack (startAdvancedTransition stMix3 planBeatmatch)).pendingTimers =
      (startAdvancedTransition stMix3 planBeatmatch).pendingTimers ∧
    (nextTrack (startAdvancedTransition stMix3 planBeatmatch)).currentTrackIndex =
      (stMix3.currentTrackIndex + 1) % stMix3.numTracks ∧
    (nextTrack (startAdvancedTransition stMix3 planBeatmatch)).gains[(stMix3.currentTrackIndex +
      1) % stMix3.numTracks]? = some (.q 1) ∧
    (nextTrack (startAdvancedTransition stMix3 planBeatmatch)).gains[stMix3.currentTrackIndex]? =
      some (.q 0) :=
  skip_forces_gains_but_keeps_automation stMix3 planBeatmatch (by decide) (by decide)
    (by decide) (by decide) (by decide) (by decide) (by decide) (by decide)

/-! ## Claim C10: nextTrack transport behaviour -/

/-- Claim C10.  With at most one loaded track nextTrack is a no-op; with two
or more tracks each call advances the index by one modulo the track count
(wrapping from the last track to the first), resets the outgoing chain's
gain, EQ bands and tempo to neutral, and sets the new current chain's gain
to 1. -/
theorem nextTrack_skip_behaviour (st : MixerState) :
    (st.numTracks ≤ 1 → nextTrack st = st) ∧
    (2 ≤ st.numTracks → st.currentTrackIndex < st.numTracks →
     st.gains.length = st.numTracks → st.lowEQ.length = st.numTracks →
     st.midEQ.length = st.numTracks → st.highEQ.length = st.numTracks →
     st.playbackRates.length = st.numTracks →
     st.tempoAdjustments.length = st.numTracks →
     ((nextTrack st).currentTrackIndex = (st.currentTrackIndex + 1) % st.numTracks ∧
      (nextTrack st).gains[(st.currentTrackIndex + 1) % st.numTracks]? = some (.q 1) ∧
      (nextTrack st).gains[st.currentTrackIndex]? = some (.q 0) ∧
      (nextTrack st).lowEQ[st.currentTrackIndex]? = some 0 ∧
      (nextTrack st).midEQ[st.currentTrackIndex]? = some 0 ∧
      (nextTrack st).highEQ[st.currentTrackIndex]? = some 0 ∧
      (nextTrack st).playbackRates[st.currentTrackIndex]? = some 1 ∧
      (nextTrack st).tempoAdjustments[st.currentTrackIndex]? = some 1)) :=
  ⟨fun h => by simp only [nextTrack, if_pos h],
   fun h2 hcur hg hlo hmid hhi hpr hta =>
     nextTrack_spec st h2 hcur hg hlo hmid hhi hpr hta⟩

/-- Claim C10, witness: skipping on the three-track mixer (and the no-op case
on a single-track mixer). -/
theorem nextTrack_skip_behaviour_witness :
    nextTrack { numTracks := 1 } = { numTracks := 1 } ∧
    ((nextTrack stMix3).currentTrackIndex =
        (stMix3.currentTrackIndex + 1) % stMix3.numTracks ∧
      (nextTrack stMix3).gains[(stMix3.currentTrackIndex + 1) % stMix3.numTracks]? =
        some (.q 1) ∧
      (nextTrack stMix3).gains[stMix3.currentTrackIndex]? = some (.q 0) ∧
      (nextTrack stMix3).lowEQ[stMix3.currentTrackIndex]? = some 0 ∧
      (nextTrack stMix3).midEQ[stMix3.currentTrackIndex]? = some 0 ∧
      (nextTrack stMix3).highEQ[stMix3.currentTrackIndex]? = some 0 ∧
      (nextTrack stMix3).playbackRates[stMix3.currentTrackIndex]? = some 1 ∧
      (nextTrack stMix3).tempoAdjustments[stMix3.currentTrackIndex]? = some 1) :=
  ⟨(nextTrack_skip_behaviour { numTracks := 1 }).1 (by decide),
   (nextTrack_skip_behaviour stMix3).2 (by decide) (by decide) (by decide) (by decide)
     (by decide) (by decide) (by decide) (by decide)⟩

end DJai
